import Mathlib

/-!
Verification of the Mergington High School activities API
(`src/app.py`): an in-memory registry of extracurricular activities with
three HTTP handlers (list, signup, unregister) and a root redirect.

The Python state (the module-level `activities` dict, whose entries are
mutated in place) is embedded as an association list threaded explicitly
through each handler; `raise HTTPException(...)` becomes an `Except.error`
result, and a handler that raises before mutating returns the input
registry unchanged.
-/

set_option maxHeartbeats 1000000

namespace MergingtonAPI

/-- One activity record: the value type of the `activities` dict in
`src/app.py` (fields `description`, `schedule`, `participants`). -/
structure Activity where
  description : String
  schedule : String
  participants : List String
deriving DecidableEq, Repr

/-- The in-memory activity database: a mapping from activity name to
activity record, embedded as an insertion-ordered association list. -/
abbrev Registry := List (String × Activity)

/-- `fastapi.HTTPException(status_code=..., detail=...)`. -/
structure HTTPException where
  status_code : Nat
  detail : String
deriving DecidableEq, Repr

/-- `fastapi.responses.RedirectResponse`; FastAPI's default status code
for this response class is 307 (Temporary Redirect). -/
structure RedirectResponse where
  url : String
  status_code : Nat := 307
deriving DecidableEq, Repr

/-- The seed data of the module-level `activities` dict in `src/app.py`:
ten named activities, each with empty `participants`. -/
def activities : Registry := [
  ("Basketball",
    { description := "Learn basketball skills and join our competitive team",
      schedule := "Monday & Wednesday, 3:30 PM",
      participants := [] }),
  ("Soccer",
    { description := "Play soccer and develop teamwork skills",
      schedule := "Tuesday & Thursday, 3:30 PM",
      participants := [] }),
  ("Tennis",
    { description := "Master tennis techniques and compete in tournaments",
      schedule := "Monday & Friday, 4:00 PM",
      participants := [] }),
  ("Volleyball",
    { description := "Join our volleyball team and improve your athletic abilities",
      schedule := "Wednesday & Saturday, 3:00 PM",
      participants := [] }),
  ("Painting",
    { description := "Explore painting techniques and create beautiful artworks",
      schedule := "Tuesday & Thursday, 4:00 PM",
      participants := [] }),
  ("Theater",
    { description := "Perform in school plays and develop acting skills",
      schedule := "Monday, Wednesday & Friday, 4:30 PM",
      participants := [] }),
  ("Photography",
    { description := "Learn photography and capture the world through your lens",
      schedule := "Saturday, 2:00 PM",
      participants := [] }),
  ("Debate Club",
    { description := "Develop public speaking and argumentation skills",
      schedule := "Tuesday & Thursday, 3:45 PM",
      participants := [] }),
  ("Science Club",
    { description := "Conduct experiments and explore scientific concepts",
      schedule := "Wednesday, 4:00 PM",
      participants := [] }),
  ("Chess Club",
    { description := "Master chess strategy and compete with other players",
      schedule := "Saturday, 1:00 PM",
      participants := [] })
]

/-- In-place mutation of one activity's `participants` list: every entry
whose key is `name` gets its participant list replaced by `ps`; all other
entries (and every key) are untouched. -/
def setParticipants (reg : Registry) (name : String) (ps : List String) : Registry :=
  reg.map (fun kv => if kv.1 = name then (kv.1, { kv.2 with participants := ps }) else kv)

/-- `GET /` handler `root` in `src/app.py`:
`return RedirectResponse(url="/static/index.html")`. The registry is not
touched. -/
def root (reg : Registry) : Registry × RedirectResponse :=
  (reg, { url := "/static/index.html" })

/-- `GET /activities` handler `get_activities` in `src/app.py`:
`return activities`. The registry is returned as the response body and is
not modified. -/
def get_activities (reg : Registry) : Registry × Registry :=
  (reg, reg)

/-- `POST /activities/{activity_name}/signup` handler `signup_for_activity`
in `src/app.py`. Checks, in order: the activity exists (else 404
"Activity not found"); the email is not already a participant (else 400
"Student already signed up for this activity"); then appends the email to
the activity's participant list and returns a confirmation message.
`raise` paths leave the registry unchanged. -/
def signup_for_activity (reg : Registry) (activity_name email : String) :
    Registry × Except HTTPException String :=
  match reg.lookup activity_name with
  | none =>
    (reg, .error { status_code := 404, detail := "Activity not found" })
  | some activity =>
    if email ∈ activity.participants then
      (reg, .error { status_code := 400,
                     detail := "Student already signed up for this activity" })
    else
      (setParticipants reg activity_name (activity.participants ++ [email]),
       .ok ("Signed up " ++ email ++ " for " ++ activity_name))

/-- Modelled from the spec: the unregister handler
(`POST /activities/{activity_name}/unregister`) is exercised by
`src/tests/test_app.py` (class `TestUnregister`) but its definition is not
present in `src/app.py`. Following the spec: preconditions checked in
order, (a) the activity exists (else 404 "Activity not found"), (b) the
email is currently in the participant list (else 400 with a detail saying
the student is not signed up); on success it removes exactly one (the
first) occurrence of the email and returns 200 with a message containing
"Unregistered", the email and the activity name. -/
def unregister_from_activity (reg : Registry) (activity_name email : String) :
    Registry × Except HTTPException String :=
  match reg.lookup activity_name with
  | none =>
    (reg, .error { status_code := 404, detail := "Activity not found" })
  | some activity =>
    if email ∈ activity.participants then
      (setParticipants reg activity_name (activity.participants.erase email),
       .ok ("Unregistered " ++ email ++ " from " ++ activity_name))
    else
      (reg, .error { status_code := 400,
                     detail := "Student is not signed up for this activity" })

/-- One observable API call, as a transition on the registry state.
`get_activities` (and the root redirect) leave the state unchanged;
`signup` and `unregister` move to whatever state the handler returns
(on their error paths that is the unchanged input state). -/
inductive Step : Registry → Registry → Prop where
  | list (reg : Registry) : Step reg (get_activities reg).1
  | signup (reg : Registry) (a e : String) : Step reg (signup_for_activity reg a e).1
  | unregister (reg : Registry) (a e : String) : Step reg (unregister_from_activity reg a e).1

/-- States reachable from the seeded initial state by any sequence of API
calls. -/
inductive Reachable : Registry → Prop where
  | init : Reachable activities
  | step (reg reg2 : Registry) : Reachable reg → Step reg reg2 → Reachable reg2

/-- Per-activity no-duplicates invariant: every email appears at most once
in any single activity's participant list. -/
def RegistryNodup (reg : Registry) : Prop :=
  ∀ kv ∈ reg, (kv.2).participants.Nodup

/-! ### Helper lemmas about `setParticipants` and `List.lookup` -/

theorem lookup_cons (k : String) (v : Activity) (tl : Registry) (a : String) :
    List.lookup a ((k, v) :: tl) = if a = k then some v else List.lookup a tl := by
  by_cases h : a = k
  · simp [List.lookup, h]
  · have hb : (a == k) = false := by simp [h]
    simp [List.lookup, h, hb]

theorem setParticipants_nil (name : String) (ps : List String) :
    setParticipants [] name ps = [] := rfl

theorem setParticipants_cons (k : String) (v : Activity) (tl : Registry)
    (name : String) (ps : List String) :
    setParticipants ((k, v) :: tl) name ps =
      (if k = name then (k, { v with participants := ps }) else (k, v))
        :: setParticipants tl name ps := by
  by_cases h : k = name <;> simp [setParticipants, h]

theorem lookup_setParticipants_self (reg : Registry) (name : String) (ps : List String)
    (act : Activity) (h : reg.lookup name = some act) :
    (setParticipants reg name ps).lookup name = some { act with participants := ps } := by
  induction reg with
  | nil => simp [List.lookup] at h
  | cons kv tl ih =>
    obtain ⟨k, v⟩ := kv
    rw [lookup_cons] at h
    rw [setParticipants_cons]
    by_cases hk : name = k
    · have hk' : k = name := hk.symm
      rw [if_pos hk] at h
      rw [if_pos hk', lookup_cons, if_pos hk]
      cases h
      rfl
    · have hk2 : ¬ (k = name) := fun e => hk e.symm
      rw [if_neg hk] at h
      by_cases hkn : k = name
      · exact absurd hkn hk2
      · rw [if_neg hkn, lookup_cons, if_neg hk]
        exact ih h

theorem lookup_setParticipants_ne (reg : Registry) (name other : String) (ps : List String)
    (h : other ≠ name) :
    (setParticipants reg name ps).lookup other = reg.lookup other := by
  induction reg with
  | nil => simp [setParticipants]
  | cons kv tl ih =>
    obtain ⟨k, v⟩ := kv
    rw [setParticipants_cons, lookup_cons]
    by_cases hkn : k = name
    · have h2 : ¬ (other = k) := fun e => h (e.trans hkn)
      rw [if_pos hkn, lookup_cons, if_neg h2, if_neg h2]
      exact ih
    · rw [if_neg hkn, lookup_cons]
      by_cases h3 : other = k
      · rw [if_pos h3, if_pos h3]
      · rw [if_neg h3, if_neg h3]
        exact ih

theorem lookup_setParticipants_none (reg : Registry) (name other : String) (ps : List String)
    (h : reg.lookup other = none) :
    (setParticipants reg name ps).lookup other = none := by
  induction reg with
  | nil => simp [setParticipants]
  | cons kv tl ih =>
    obtain ⟨k, v⟩ := kv
    rw [lookup_cons] at h
    by_cases h3 : other = k
    · rw [if_pos h3] at h
      exact absurd h (by simp)
    · rw [if_neg h3] at h
      rw [setParticipants_cons]
      by_cases hkn : k = name
      · rw [if_pos hkn, lookup_cons, if_neg h3]
        exact ih h
      · rw [if_neg hkn, lookup_cons, if_neg h3]
        exact ih h

theorem keys_setParticipants (reg : Registry) (name : String) (ps : List String) :
    (setParticipants reg name ps).map Prod.fst = reg.map Prod.fst := by
  induction reg with
  | nil => simp [setParticipants]
  | cons kv tl ih =>
    obtain ⟨k, v⟩ := kv
    rw [setParticipants_cons]
    by_cases hkn : k = name
    · rw [if_pos hkn]
      simp only [List.map_cons, ih]
    · rw [if_neg hkn]
      simp only [List.map_cons, ih]

theorem fields_setParticipants (reg : Registry) (name : String) (ps : List String)
    (kv : String × Activity) (hkv : kv ∈ setParticipants reg name ps) :
    (∃ kv0 ∈ reg, kv = (kv0.1, { kv0.2 with participants := ps })) ∨ kv ∈ reg := by
  simp only [setParticipants, List.mem_map] at hkv
  obtain ⟨kv0, hkv0, heq⟩ := hkv
  by_cases hk : kv0.1 = name
  · left
    refine ⟨kv0, hkv0, ?_⟩
    rw [if_pos hk] at heq
    exact heq.symm
  · right
    rw [if_neg hk] at heq
    exact heq ▸ hkv0

theorem mem_of_lookup (reg : Registry) (a : String) (act : Activity)
    (h : reg.lookup a = some act) : (a, act) ∈ reg := by
  induction reg with
  | nil => simp [List.lookup] at h
  | cons kv tl ih =>
    obtain ⟨k, v⟩ := kv
    rw [lookup_cons] at h
    by_cases hk : a = k
    · rw [if_pos hk] at h
      cases h
      rw [hk]
      exact List.mem_cons_self _ _
    · rw [if_neg hk] at h
      exact List.mem_cons_of_mem _ (ih h)

theorem lookup_eq_of_mem_of_nodup_keys (reg : Registry)
    (hnd : (reg.map Prod.fst).Nodup) (a : String) (act : Activity)
    (hm : (a, act) ∈ reg) : reg.lookup a = some act := by
  induction reg with
  | nil => simp at hm
  | cons kv tl ih =>
    obtain ⟨k, v⟩ := kv
    simp only [List.map_cons, List.nodup_cons] at hnd
    rw [lookup_cons]
    rcases List.mem_cons.mp hm with h | h
    · cases h
      rw [if_pos rfl]
    · by_cases hk : a = k
      · exfalso
        apply hnd.1
        rw [← hk]
        exact List.mem_map.mpr ⟨(a, act), h, rfl⟩
      · rw [if_neg hk]
        exact ih hnd.2 h

theorem keys_mem_of_lookup_isSome (reg : Registry) (a : String)
    (h : a ∈ reg.map Prod.fst) : ∃ act, reg.lookup a = some act := by
  induction reg with
  | nil => simp at h
  | cons kv tl ih =>
    obtain ⟨k, v⟩ := kv
    rw [lookup_cons]
    by_cases hk : a = k
    · exact ⟨v, by rw [if_pos hk]⟩
    · simp only [List.map_cons, List.mem_cons] at h
      rcases h with h | h
      · exact absurd h hk
      · obtain ⟨act, hact⟩ := ih h
        exact ⟨act, by rw [if_neg hk]; exact hact⟩

/-! ### Branch-by-branch characterization of the two mutating handlers -/

theorem signup_eq_notFound (reg : Registry) (A E : String)
    (h : reg.lookup A = none) :
    signup_for_activity reg A E =
      (reg, .error { status_code := 404, detail := "Activity not found" }) := by
  unfold signup_for_activity
  rw [h]

theorem signup_eq_conflict (reg : Registry) (A E : String) (act : Activity)
    (hA : reg.lookup A = some act) (hE : E ∈ act.participants) :
    signup_for_activity reg A E =
      (reg, .error { status_code := 400,
                     detail := "Student already signed up for this activity" }) := by
  unfold signup_for_activity
  rw [hA]
  simp [hE]

theorem signup_eq_ok (reg : Registry) (A E : String) (act : Activity)
    (hA : reg.lookup A = some act) (hE : E ∉ act.participants) :
    signup_for_activity reg A E =
      (setParticipants reg A (act.participants ++ [E]),
       .ok ("Signed up " ++ E ++ " for " ++ A)) := by
  unfold signup_for_activity
  rw [hA]
  simp [hE]

theorem unregister_eq_notFound (reg : Registry) (A E : String)
    (h : reg.lookup A = none) :
    unregister_from_activity reg A E =
      (reg, .error { status_code := 404, detail := "Activity not found" }) := by
  unfold unregister_from_activity
  rw [h]

theorem unregister_eq_conflict (reg : Registry) (A E : String) (act : Activity)
    (hA : reg.lookup A = some act) (hE : E ∉ act.participants) :
    unregister_from_activity reg A E =
      (reg, .error { status_code := 400,
                     detail := "Student is not signed up for this activity" }) := by
  unfold unregister_from_activity
  rw [hA]
  simp [hE]

theorem unregister_eq_ok (reg : Registry) (A E : String) (act : Activity)
    (hA : reg.lookup A = some act) (hE : E ∈ act.participants) :
    unregister_from_activity reg A E =
      (setParticipants reg A (act.participants.erase E),
       .ok ("Unregistered " ++ E ++ " from " ++ A)) := by
  unfold unregister_from_activity
  rw [hA]
  simp [hE]

/-! ### Claim theorems -/

/-- C2: for every activity `A` in the registry and email `E` not already in
`A`'s participant list, signup succeeds: the new participant list is the old
one with `E` appended at the end (so previously registered participants keep
their order and `E` is the last element), `E` then occurs exactly once, and
the handler returns the message "Signed up {E} for {A}". -/
theorem signup_appends_and_unique (reg : Registry) (A E : String) (act : Activity)
    (hA : reg.lookup A = some act) (hE : E ∉ act.participants) :
    (signup_for_activity reg A E).2 = .ok ("Signed up " ++ E ++ " for " ++ A)
  ∧ ((signup_for_activity reg A E).1).lookup A =
      some { act with participants := act.participants ++ [E] }
  ∧ (act.participants ++ [E]).count E = 1
  ∧ (act.participants ++ [E]).getLast? = some E := by
  rw [signup_eq_ok reg A E act hA hE]
  refine ⟨rfl, ?_, ?_, ?_⟩
  · exact lookup_setParticipants_self reg A _ act hA
  · rw [List.count_append, List.count_eq_zero.mpr hE]
    simp
  · exact List.getLast?_concat _

/-- Witness for C2: a fresh email signs up for the seeded "Basketball"
activity. -/
theorem signup_appends_and_unique_witness :
    (signup_for_activity activities "Basketball" "student@mergington.edu").2 =
      .ok ("Signed up " ++ "student@mergington.edu" ++ " for " ++ "Basketball") :=
  (signup_appends_and_unique activities "Basketball" "student@mergington.edu"
    { description := "Learn basketball skills and join our competitive team",
      schedule := "Monday & Wednesday, 3:30 PM",
      participants := [] } rfl (by simp)).1

/-- C3: signup fails exactly when a precondition is violated, with the
activity-existence check performed first: it yields 404 "Activity not found"
iff the name is not a registry key; when the activity exists it yields 400
"Student already signed up for this activity" iff the email is already a
participant; it succeeds iff the activity exists and the email is new; and a
successful signup immediately followed by the same signup yields the 400
Conflict. -/
theorem signup_error_spec (reg : Registry) (A E : String) :
    ((signup_for_activity reg A E).2 =
        .error { status_code := 404, detail := "Activity not found" } ↔
      reg.lookup A = none)
  ∧ (∀ act, reg.lookup A = some act →
      ((signup_for_activity reg A E).2 =
          .error { status_code := 400,
                   detail := "Student already signed up for this activity" } ↔
        E ∈ act.participants))
  ∧ ((∃ msg, (signup_for_activity reg A E).2 = .ok msg) ↔
      (∃ act, reg.lookup A = some act ∧ E ∉ act.participants))
  ∧ (∀ msg, (signup_for_activity reg A E).2 = .ok msg →
      (signup_for_activity (signup_for_activity reg A E).1 A E).2 =
        .error { status_code := 400,
                 detail := "Student already signed up for this activity" }) := by
  rcases hL : reg.lookup A with _ | act
  · rw [signup_eq_notFound reg A E hL]
    refine ⟨by simp, ?_, by simp, by simp⟩
    intro act hact
    exact absurd hact (by simp)
  · by_cases hE : E ∈ act.participants
    · rw [signup_eq_conflict reg A E act hL hE]
      refine ⟨by simp, ?_, ?_, by simp⟩
      · intro act' hact'
        cases hact'
        simpa using hE
      · constructor
        · rintro ⟨msg, hmsg⟩
          exact Except.noConfusion hmsg
        · rintro ⟨act', hact', hE'⟩
          cases hact'
          exact absurd hE hE'
    · rw [signup_eq_ok reg A E act hL hE]
      refine ⟨by simp, ?_, ?_, ?_⟩
      · intro act' hact'
        cases hact'
        constructor
        · intro h
          exact Except.noConfusion h
        · intro h
          exact absurd h hE
      · exact ⟨fun _ => ⟨act, rfl, hE⟩, fun _ => ⟨_, rfl⟩⟩
      · intro msg _
        have h2 : (setParticipants reg A (act.participants ++ [E])).lookup A =
            some { act with participants := act.participants ++ [E] } :=
          lookup_setParticipants_self reg A _ act hL
        have h3 : E ∈ ({ act with participants := act.participants ++ [E] }
            : Activity).participants := by simp
        rw [signup_eq_conflict _ A E _ h2 h3]

/-- Witness for C3: signup against the absent activity "NoSuchClub" yields
the 404 NotFound error on the seeded registry. -/
theorem signup_error_spec_witness :
    (signup_for_activity activities "NoSuchClub" "student@mergington.edu").2 =
      .error { status_code := 404, detail := "Activity not found" } :=
  (signup_error_spec activities "NoSuchClub" "student@mergington.edu").1.mpr rfl

/-- C10: whenever signup fails (with NotFound or Conflict), the registry is
completely unchanged: both error branches return before the append is
performed. -/
theorem signup_failure_preserves_state (reg : Registry) (A E : String)
    (e : HTTPException) (h : (signup_for_activity reg A E).2 = .error e) :
    (signup_for_activity reg A E).1 = reg := by
  rcases hL : reg.lookup A with _ | act
  · rw [signup_eq_notFound reg A E hL]
  · by_cases hE : E ∈ act.participants
    · rw [signup_eq_conflict reg A E act hL hE]
    · rw [signup_eq_ok reg A E act hL hE] at h
      cases h

/-- Witness for C10: the failed signup against "NoSuchClub" leaves the
seeded registry untouched. -/
theorem signup_failure_preserves_state_witness :
    (signup_for_activity activities "NoSuchClub" "student@mergington.edu").1 =
      activities :=
  signup_failure_preserves_state activities "NoSuchClub" "student@mergington.edu"
    { status_code := 404, detail := "Activity not found" } rfl

/-- C8: list_activities has no side effects: in every state it returns the
full current mapping as the response body, leaves the registry unchanged,
and never fails (it is a total function with no error result). -/
theorem get_activities_spec (reg : Registry) :
    (get_activities reg).1 = reg ∧ (get_activities reg).2 = reg :=
  ⟨rfl, rfl⟩

/-- C9: GET / always returns a redirect with the temporary-redirect status
code 307 whose target is "/static/index.html", and leaves the registry
unchanged. -/
theorem root_spec (reg : Registry) :
    (root reg).1 = reg ∧ (root reg).2.status_code = 307 ∧
      (root reg).2.url = "/static/index.html" :=
  ⟨rfl, rfl, rfl⟩

/-- C1: for every activity `A` in the registry and email `E` currently in
`A`'s participant list, unregister succeeds: it removes exactly one
occurrence of `E` (the count of `E` drops by one, every other email's count
is unchanged, the length drops by one) and returns the confirmation message
"Unregistered {E} from {A}", which references `E` and `A`. -/
theorem unregister_removes_once (reg : Registry) (A E : String) (act : Activity)
    (hA : reg.lookup A = some act) (hE : E ∈ act.participants) :
    (unregister_from_activity reg A E).2 =
        .ok ("Unregistered " ++ E ++ " from " ++ A)
  ∧ ((unregister_from_activity reg A E).1).lookup A =
      some { act with participants := act.participants.erase E }
  ∧ (act.participants.erase E).count E = act.participants.count E - 1
  ∧ (∀ x, x ≠ E → (act.participants.erase E).count x = act.participants.count x)
  ∧ (act.participants.erase E).length + 1 = act.participants.length := by
  rw [unregister_eq_ok reg A E act hA hE]
  refine ⟨rfl, lookup_setParticipants_self reg A _ act hA,
    List.count_erase_self E _, ?_, ?_⟩
  · intro x hx
    exact List.count_erase_of_ne hx _
  · rw [List.length_erase_of_mem hE]
    have hpos : 0 < act.participants.length := List.length_pos_of_mem hE
    omega

/-- Witness for C1: after signing "student@mergington.edu" up for
"Basketball", unregistering returns the confirmation message. -/
theorem unregister_removes_once_witness :
    (unregister_from_activity
        (signup_for_activity activities "Basketball" "student@mergington.edu").1
        "Basketball" "student@mergington.edu").2 =
      .ok ("Unregistered " ++ "student@mergington.edu" ++ " from " ++ "Basketball") :=
  (unregister_removes_once
    (signup_for_activity activities "Basketball" "student@mergington.edu").1
    "Basketball" "student@mergington.edu"
    { description := "Learn basketball skills and join our competitive team",
      schedule := "Monday & Wednesday, 3:30 PM",
      participants := ["student@mergington.edu"] } rfl (by simp)).1

/-- C4: unregister fails with 404 "Activity not found" whenever the name is
not a registry key — for every email, and in particular for "NoSuchClub" on
the seeded registry — and fails with 400 (detail saying the student is not
signed up) when the activity exists but the email is not a participant; the
existence check comes first, so the 404 case holds regardless of the email. -/
theorem unregister_error_spec (reg : Registry) (A E : String) :
    (reg.lookup A = none →
      unregister_from_activity reg A E =
        (reg, .error { status_code := 404, detail := "Activity not found" }))
  ∧ (∀ act, reg.lookup A = some act → E ∉ act.participants →
      unregister_from_activity reg A E =
        (reg, .error { status_code := 400,
                       detail := "Student is not signed up for this activity" }))
  ∧ (activities.lookup "NoSuchClub" = none ∧
      (unregister_from_activity activities "NoSuchClub" E).2 =
        .error { status_code := 404, detail := "Activity not found" }) := by
  refine ⟨fun h => unregister_eq_notFound reg A E h,
          fun act hA hE => unregister_eq_conflict reg A E act hA hE, rfl, ?_⟩
  rw [unregister_eq_notFound activities "NoSuchClub" E rfl]

/-- Witness for C4: unregistering an email that never signed up for the
seeded "Basketball" activity yields the 400 Conflict and leaves the state
unchanged. -/
theorem unregister_error_spec_witness :
    unregister_from_activity activities "Basketball" "ghost@mergington.edu" =
      (activities, .error { status_code := 400,
                            detail := "Student is not signed up for this activity" }) :=
  (unregister_error_spec activities "Basketball" "ghost@mergington.edu").2.1
    { description := "Learn basketball skills and join our competitive team",
      schedule := "Monday & Wednesday, 3:30 PM",
      participants := [] } rfl (by simp)

/-- C7: round trip — for every activity `A` in the registry and email `E`
initially not registered for `A`, the sequence signup; unregister; signup
succeeds at all three steps, and in the final state `E` is in `A`'s
participant list. -/
theorem signup_unregister_signup_cycle (reg : Registry) (A E : String) (act : Activity)
    (hA : reg.lookup A = some act) (hE : E ∉ act.participants) :
    ∃ reg1 reg2 reg3 m1 m2 m3,
      signup_for_activity reg A E = (reg1, Except.ok m1) ∧
      unregister_from_activity reg1 A E = (reg2, Except.ok m2) ∧
      signup_for_activity reg2 A E = (reg3, Except.ok m3) ∧
      ∃ act3, reg3.lookup A = some act3 ∧ E ∈ act3.participants := by
  have hA1 : (setParticipants reg A (act.participants ++ [E])).lookup A =
      some { act with participants := act.participants ++ [E] } :=
    lookup_setParticipants_self reg A _ act hA
  have hE1 : E ∈ act.participants ++ [E] := by simp
  have herase : (act.participants ++ [E]).erase E = act.participants := by
    rw [List.erase_append_right _ hE]
    simp
  have h2 := unregister_eq_ok _ A E _ hA1 hE1
  have hA2 : (setParticipants (setParticipants reg A (act.participants ++ [E])) A
      ((act.participants ++ [E]).erase E)).lookup A = some act := by
    have h4 := lookup_setParticipants_self (setParticipants reg A (act.participants ++ [E]))
      A ((act.participants ++ [E]).erase E) _ hA1
    rw [herase] at h4 ⊢
    exact h4
  have h3 := signup_eq_ok _ A E act hA2 hE
  refine ⟨_, _, _, _, _, _, signup_eq_ok reg A E act hA hE, h2, h3,
    _, lookup_setParticipants_self _ A _ act hA2, by simp⟩

/-- Witness for C7: the signup–unregister–signup cycle for a fresh email on
the seeded "Basketball" activity. -/
theorem signup_unregister_signup_cycle_witness :
    ∃ reg1 reg2 reg3 m1 m2 m3,
      signup_for_activity activities "Basketball" "student@mergington.edu" =
        (reg1, Except.ok m1) ∧
      unregister_from_activity reg1 "Basketball" "student@mergington.edu" =
        (reg2, Except.ok m2) ∧
      signup_for_activity reg2 "Basketball" "student@mergington.edu" =
        (reg3, Except.ok m3) ∧
      ∃ act3, reg3.lookup "Basketball" = some act3 ∧
        "student@mergington.edu" ∈ act3.participants :=
  signup_unregister_signup_cycle activities "Basketball" "student@mergington.edu"
    { description := "Learn basketball skills and join our competitive team",
      schedule := "Monday & Wednesday, 3:30 PM",
      participants := [] } rfl (by simp)

/-- The immutable projection of a registry entry: its key, description and
schedule — everything except the mutable participant list. -/
def entryFrame (kv : String × Activity) : String × String × String :=
  (kv.1, kv.2.description, kv.2.schedule)

theorem entryFrame_setParticipants (reg : Registry) (name : String) (ps : List String) :
    (setParticipants reg name ps).map entryFrame = reg.map entryFrame := by
  induction reg with
  | nil => simp [setParticipants]
  | cons kv tl ih =>
    obtain ⟨k, v⟩ := kv
    rw [setParticipants_cons]
    by_cases hk : k = name
    · rw [if_pos hk]
      simp only [List.map_cons, ih]
      rfl
    · rw [if_neg hk]
      simp only [List.map_cons, ih]

theorem reachable_entryFrame (reg : Registry) (h : Reachable reg) :
    reg.map entryFrame = activities.map entryFrame := by
  induction h with
  | init => rfl
  | step reg reg2 hreach hstep ih =>
    cases hstep with
    | list => exact ih
    | signup a e =>
      rcases hL : reg.lookup a with _ | act
      · rw [signup_eq_notFound reg a e hL]
        exact ih
      · by_cases hE : e ∈ act.participants
        · rw [signup_eq_conflict reg a e act hL hE]
          exact ih
        · rw [signup_eq_ok reg a e act hL hE]
          show (setParticipants reg a (act.participants ++ [e])).map entryFrame = _
          rw [entryFrame_setParticipants]
          exact ih
    | unregister a e =>
      rcases hL : reg.lookup a with _ | act
      · rw [unregister_eq_notFound reg a e hL]
        exact ih
      · by_cases hE : e ∈ act.participants
        · rw [unregister_eq_ok reg a e act hL hE]
          show (setParticipants reg a (act.participants.erase e)).map entryFrame = _
          rw [entryFrame_setParticipants]
          exact ih
        · rw [unregister_eq_conflict reg a e act hL hE]
          exact ih

theorem keys_of_entryFrame (reg : Registry)
    (h : reg.map entryFrame = activities.map entryFrame) :
    reg.map Prod.fst = activities.map Prod.fst := by
  have h2 := congrArg (List.map (fun x : String × String × String => x.1)) h
  simpa [List.map_map, entryFrame, Function.comp] using h2

/-- C5: in every state reachable from the seeded initial state by any
sequence of list, signup and unregister calls, every email appears at most
once in any single activity's participant list. -/
theorem reachable_registry_nodup (reg : Registry) (h : Reachable reg) :
    RegistryNodup reg := by
  induction h with
  | init =>
    show ∀ kv ∈ activities, (kv.2).participants.Nodup
    decide
  | step reg reg2 hreach hstep ih =>
    cases hstep with
    | list => exact ih
    | signup a e =>
      rcases hL : reg.lookup a with _ | act
      · rw [signup_eq_notFound reg a e hL]
        exact ih
      · by_cases hE : e ∈ act.participants
        · rw [signup_eq_conflict reg a e act hL hE]
          exact ih
        · rw [signup_eq_ok reg a e act hL hE]
          intro kv hkv
          rcases fields_setParticipants reg a _ kv hkv with ⟨kv0, hkv0, rfl⟩ | hmem
          · have hnd : act.participants.Nodup := ih (a, act) (mem_of_lookup reg a act hL)
            simp only [List.nodup_append, List.nodup_cons, List.not_mem_nil,
              not_false_iff, List.nodup_nil, and_true, List.disjoint_singleton]
            exact ⟨hnd, trivial, hE⟩
          · exact ih kv hmem
    | unregister a e =>
      rcases hL : reg.lookup a with _ | act
      · rw [unregister_eq_notFound reg a e hL]
        exact ih
      · by_cases hE : e ∈ act.participants
        · rw [unregister_eq_ok reg a e act hL hE]
          intro kv hkv
          rcases fields_setParticipants reg a _ kv hkv with ⟨kv0, hkv0, rfl⟩ | hmem
          · have hnd : act.participants.Nodup := ih (a, act) (mem_of_lookup reg a act hL)
            exact (List.erase_sublist e act.participants).nodup hnd
          · exact ih kv hmem
        · rw [unregister_eq_conflict reg a e act hL hE]
          exact ih

/-- Witness for C5: the seeded initial state satisfies the no-duplicates
invariant. -/
theorem reachable_registry_nodup_witness : RegistryNodup activities :=
  reachable_registry_nodup activities Reachable.init

/-- C6: the registry's key set is fixed for the process lifetime — every
reachable state has exactly the ten seeded activity names, in seed order;
each seeded name still maps to a record carrying the seeded description and
schedule (and some participant list); and list_activities returns the full
registry. -/
theorem registry_keys_fixed (reg : Registry) (h : Reachable reg) :
    reg.map Prod.fst = activities.map Prod.fst
  ∧ (∀ kv ∈ activities, ∃ act, reg.lookup kv.1 = some act ∧
      act.description = kv.2.description ∧ act.schedule = kv.2.schedule)
  ∧ (get_activities reg).2 = reg := by
  have hframe := reachable_entryFrame reg h
  refine ⟨keys_of_entryFrame reg hframe, ?_, rfl⟩
  intro kv hkv
  have hmem : entryFrame kv ∈ reg.map entryFrame := by
    rw [hframe]
    exact List.mem_map.mpr ⟨kv, hkv, rfl⟩
  obtain ⟨kv', hkv', hfeq⟩ := List.mem_map.mp hmem
  have h1 : kv'.1 = kv.1 := congrArg (fun x : String × String × String => x.1) hfeq
  have hdesc : kv'.2.description = kv.2.description :=
    congrArg (fun x : String × String × String => x.2.1) hfeq
  have hsch : kv'.2.schedule = kv.2.schedule :=
    congrArg (fun x : String × String × String => x.2.2) hfeq
  have hnd : (reg.map Prod.fst).Nodup := by
    rw [keys_of_entryFrame reg hframe]
    decide
  have hlook : reg.lookup kv'.1 = some kv'.2 :=
    lookup_eq_of_mem_of_nodup_keys reg hnd kv'.1 kv'.2 hkv'
  rw [h1] at hlook
  exact ⟨kv'.2, hlook, hdesc, hsch⟩

/-- Witness for C6: after a signup step from the seeded state, the key list
is still exactly the ten seeded activity names. -/
theorem registry_keys_fixed_witness :
    ((signup_for_activity activities "Chess Club" "student@mergington.edu").1).map
        Prod.fst = activities.map Prod.fst :=
  (registry_keys_fixed _ (Reachable.step _ _ Reachable.init
    (Step.signup activities "Chess Club" "student@mergington.edu"))).1

end MergingtonAPI
